import Mathlib

/- Verification of the MSAS multimodal sentiment analysis application.
   The Python sources under src/ are shallowly embedded: pure computations
   become Lean functions over ℚ (Python floats carry exact decimal constants
   here), Strings model Python str, and fallible steps return Except Unit.
   External ML models (Whisper, BERT classifier, FER, the LLM) are oracles:
   their outputs are parameters of the embedded functions. -/

set_option maxRecDepth 4000

namespace MSAS

/- ### Python string primitives, modelled on character lists.
   These model str.strip, str.split, str.startswith and str.capitalize as
   used by the repository. They recurse structurally (with an explicit fuel
   bound for split) so that concrete instances reduce in the kernel. -/

/-- Whitespace test used by the model of Python str.strip. -/
def pyIsSpace (c : Char) : Bool :=
  c = ' ' || c = '\t' || c = '\n' || c = '\r'

/-- Model of Python str.strip on a character list. -/
def pyStripL (l : List Char) : List Char :=
  ((l.dropWhile pyIsSpace).reverse.dropWhile pyIsSpace).reverse

/-- Model of Python str.strip. -/
def pyStrip (s : String) : String :=
  String.mk (pyStripL s.data)

/-- First occurrence of a separator inside a character list: returns the
part before it and the part after it. -/
def findSep (sep : List Char) : List Char → Option (List Char × List Char)
  | [] => none
  | c :: rest =>
    if sep.isPrefixOf (c :: rest) then some ([], (c :: rest).drop sep.length)
    else
      match findSep sep rest with
      | some (b, a) => some (c :: b, a)
      | none => none

/-- Fuel-bounded splitting worker for the model of Python str.split. -/
def splitSepAux (sep : List Char) : Nat → List Char → List (List Char)
  | 0, l => [l]
  | Nat.succ n, l =>
    match findSep sep l with
    | none => [l]
    | some (b, a) => b :: splitSepAux sep n a

/-- Model of Python str.split with a nonempty separator. -/
def pySplit (s sep : String) : List String :=
  (splitSepAux sep.data (s.data.length + 1) s.data).map String.mk

/-- Model of Python str.startswith. -/
def pyStartsWith (pre s : String) : Bool :=
  pre.data.isPrefixOf s.data

/-- Model of Python str.capitalize: first character upper-cased, the rest
lower-cased. -/
def pyCapitalize (s : String) : String :=
  match s.data with
  | [] => ""
  | c :: rest => String.mk (c.toUpper :: rest.map Char.toLower)

/- ### src/core/sentiment.py — SentimentAnalyzer -/

/-- Threshold mapping of SentimentAnalyzer.analyze_text_sentiment applied to
the classifier's positive-class probability (src/core/sentiment.py lines
72-77). -/
def classify_positive_prob (p : ℚ) : String :=
  if p > 6/10 then "Positive"
  else if p < 4/10 then "Negative"
  else "Neutral"

/-- SentimentAnalyzer.analyze_text_sentiment. The BERT classifier is an
oracle: positive_prob is its output for the given text, none meaning the
model call raised. Empty text short-circuits to Neutral with probability 0
before the model is consulted. -/
def analyze_text_sentiment (text : String) (positive_prob : Option ℚ) :
    Except Unit (String × ℚ) :=
  if text = "" then .ok ("Neutral", 0)
  else
    match positive_prob with
    | none => .error ()
    | some p => .ok (classify_positive_prob p, p)

/-- One video frame as seen by SentimentAnalyzer.analyze_video_emotion: the
list of faces the FER oracle detects in it, each with its emotion
probability dictionary. -/
abbrev Frame := List (List (String × ℚ))

/-- The observable behaviour of a video asset: whether the path exists,
whether OpenCV can open it, and the decoded frames. -/
structure VideoAsset where
  pathExists : Bool
  opens : Bool
  frames : List Frame
deriving Repr

/-- Environment of one analyze_video_emotion call: the asset plus whether
the per-frame CSV sidecar write succeeds. -/
structure VideoEnv where
  asset : VideoAsset
  csvWriteOk : Bool
deriving Repr

/-- Side effects of analyze_video_emotion that the claims talk about. -/
inductive VideoEvent
  | openAttempted
  | csvWritten
deriving DecidableEq, Repr

/-- Model of pandas DataFrame.idxmax(axis=1) on one row: the first key
holding the maximal value (ties keep the earlier column). -/
def idxmaxRow (row : List (String × ℚ)) : Option String :=
  (row.foldl
    (fun acc kv =>
      match acc with
      | none => some kv
      | some best => if best.2 < kv.2 then some kv else acc)
    none).map Prod.fst

/-- Model of pandas Series.mode followed by taking element 0: a value of
maximal multiplicity. The tie-break between equally frequent values is
implementation-defined in the source (spec §9); this model keeps the first
occurrence. -/
def modeFirst (l : List String) : Option String :=
  l.foldl
    (fun acc x =>
      match acc with
      | none => some x
      | some b => if l.count b < l.count x then some x else acc)
    none

/-- SentimentAnalyzer.analyze_video_emotion together with its observable
side effects (src/core/sentiment.py lines 82-141). Mirrors the source
order: existence check ("Unknown"), open check ("Error"), per-frame face
collection keeping the first face of each frame, the NoFace check, the CSV
sidecar write (a write failure is swallowed by the enclosing try/except,
which returns "Error"), then dominant-emotion aggregation and
capitalization. -/
def analyze_video_emotion_ev (v : VideoEnv) : String × List VideoEvent :=
  if v.asset.pathExists = false then ("Unknown", [])
  else if v.asset.opens = false then ("Error", [.openAttempted])
  else
    let all_emotions := v.asset.frames.filterMap List.head?
    if all_emotions = [] then ("NoFace", [.openAttempted])
    else if v.csvWriteOk = false then ("Error", [.openAttempted])
    else
      match modeFirst (all_emotions.filterMap idxmaxRow) with
      | none => ("Unknown", [.openAttempted, .csvWritten])
      | some d => (pyCapitalize d, [.openAttempted, .csvWritten])

/-- The label returned by SentimentAnalyzer.analyze_video_emotion. -/
def analyze_video_emotion (v : VideoEnv) : String :=
  (analyze_video_emotion_ev v).1

/-- The text-weight dictionary of get_multimodal_sentiment. -/
def text_weights : List (String × ℚ) :=
  [("Positive", 1), ("Negative", -1), ("Neutral", 0)]

/-- The video-weight dictionary of get_multimodal_sentiment. -/
def video_weights : List (String × ℚ) :=
  [("Happy", 1), ("Surprise", 1/2), ("Disgust", -1),
   ("Sad", -(7/10)), ("Angry", -1), ("Fear", -(3/5)),
   ("Neutral", 1/10)]

/-- Model of Python dict.get with a default. -/
def dictGet (d : List (String × ℚ)) (k : String) (dflt : ℚ) : ℚ :=
  match d.find? (fun kv => kv.1 = k) with
  | some kv => kv.2
  | none => dflt

/-- The fusion tail of SentimentAnalyzer.get_multimodal_sentiment
(src/core/sentiment.py lines 153-170): the weighted score and the final
sentiment derived from the pair of labels. -/
def fuse_scores (text_sentiment video_emotion : String) : ℚ × String :=
  let text_score := dictGet text_weights text_sentiment 0
  let video_score := dictGet video_weights video_emotion 0
  let total_score := text_score * (6/10) + video_score * (4/10)
  (total_score,
   if total_score ≥ 3/10 then "Positive"
   else if total_score ≤ -(3/10) then "Negative"
   else "Neutral")

/-- The result dictionary of get_multimodal_sentiment. -/
structure SentimentResult where
  text_sentiment : String
  video_emotion : String
  final_sentiment : String
deriving DecidableEq, Repr

/-- SentimentAnalyzer.get_multimodal_sentiment: text analysis (which may
raise through the classifier oracle), video analysis, then fusion. -/
def get_multimodal_sentiment (venv : VideoEnv) (text : String)
    (positive_prob : Option ℚ) : Except Unit SentimentResult :=
  match analyze_text_sentiment text positive_prob with
  | .error e => .error e
  | .ok ts_p =>
    let video_emotion := analyze_video_emotion venv
    .ok ⟨ts_p.1, video_emotion, (fuse_scores ts_p.1 video_emotion).2⟩

/- ### src/core/responder.py — LLMResponder -/

/-- The fixed fallback reply of LLMResponder.generate_response for empty
user text (src/core/responder.py line 83). -/
def fallback_reply : String :=
  "我在这里，准备好倾听你的心声。"

/-- LLMResponder.generate_response. The language model is an oracle:
llm_output is its decoded generation for the built prompt, none meaning
generation raised. The Bool in the result records whether the model was
invoked. Empty user text short-circuits to the fixed fallback before the
prompt is built; otherwise the decoded output is stripped. -/
def generate_response (user_text sentiment : String)
    (llm_output : Option String) : Except Unit (String × Bool) :=
  if user_text = "" then .ok (fallback_reply, false)
  else
    match llm_output with
    | none => .error ()
    | some r => .ok (pyStrip r, true)

/- ### src/core/analysis_pipeline.py — AnalysisPipeline, and
     src/ui/workers.py — AnalysisWorker -/

/-- The placeholder substituted for an empty transcription result
(src/core/analysis_pipeline.py line 22). -/
def placeholder_text : String :=
  "(未能识别语音)"

/-- The steps of one AnalysisPipeline.run, as they are attempted, plus the
logged failures of the two sidecar writes the pipeline itself guards. -/
inductive PipelineStep
  | transcribeStep
  | saveTextStep
  | saveTextFailedStep
  | fuseStep
  | saveSentimentStep
  | saveSentimentFailedStep
  | respondStep
deriving DecidableEq, Repr

/-- Environment of one AnalysisPipeline.run. transcript is the value
returned by AudioTranscriber.transcribe_audio — that method catches every
internal error and returns the empty string for a missing file or a failed
recognition, so it is a total oracle. The two Bool flags say whether the
transcript sidecar write and the sentiment sidecar write succeed.
positive_prob and llm_output are the classifier and LLM oracles, none
meaning the call raised. -/
structure PipelineEnv where
  transcript : String
  saveTextOk : Bool
  positive_prob : Option ℚ
  video : VideoEnv
  saveSentimentOk : Bool
  llm_output : Option String
deriving Repr

/-- AnalysisPipeline.run (src/core/analysis_pipeline.py lines 13-50),
together with its step trace. Mirrors the source: transcription with
placeholder substitution, the transcript write (whose failure _save_text
catches and logs), multimodal sentiment analysis (which propagates a
classifier exception), the sentiment-file write (whose failure run catches
and logs), response generation (which propagates an LLM exception), then
the 4-tuple result. -/
def pipelineRun (e : PipelineEnv) :
    Except Unit (String × String × String × String) × List PipelineStep :=
  let user_text := if e.transcript = "" then placeholder_text else e.transcript
  let saveTextEvs :=
    if e.saveTextOk then [PipelineStep.saveTextStep]
    else [PipelineStep.saveTextStep, PipelineStep.saveTextFailedStep]
  match get_multimodal_sentiment e.video user_text e.positive_prob with
  | .error er =>
    (.error er, [PipelineStep.transcribeStep] ++ saveTextEvs ++ [PipelineStep.fuseStep])
  | .ok res =>
    let saveSentEvs :=
      if e.saveSentimentOk then [PipelineStep.saveSentimentStep]
      else [PipelineStep.saveSentimentStep, PipelineStep.saveSentimentFailedStep]
    match generate_response user_text res.final_sentiment e.llm_output with
    | .error er =>
      (.error er,
       [PipelineStep.transcribeStep] ++ saveTextEvs ++ [PipelineStep.fuseStep]
         ++ saveSentEvs ++ [PipelineStep.respondStep])
    | .ok ai =>
      (.ok (user_text, ai.1, res.text_sentiment, res.video_emotion),
       [PipelineStep.transcribeStep] ++ saveTextEvs ++ [PipelineStep.fuseStep]
         ++ saveSentEvs ++ [PipelineStep.respondStep])

/-- The degraded result AnalysisWorker.run emits when the pipeline raises
(src/ui/workers.py line 91). -/
def degraded_tuple : String × String × String × String :=
  ("处理出错", "抱歉，我遇到了一点问题。", "未知", "未知")

/-- AnalysisWorker.run (src/ui/workers.py lines 71-91): runs the pipeline
inside a try/except and converts any escaping exception into the degraded
4-tuple, so the worker itself always delivers a result. -/
def workerRun (e : PipelineEnv) :
    Except Unit (String × String × String × String) :=
  match (pipelineRun e).1 with
  | .ok r => .ok r
  | .error _ => .ok degraded_tuple

/- ### src/utils/hardware.py — VADRecorderUI -/

/-- The buffer state of a VADRecorderUI instance. Audio chunks are byte
sequences, video frames are opaque. -/
structure RecorderState where
  audio_frames : List (List Nat)
  video_frames : List Nat
deriving Repr

/-- A media file written by manual_save_recording. -/
inductive FileWrite
  | wavWrite (basename : String)
  | aviWrite (basename : String)
deriving DecidableEq, Repr

/-- VADRecorderUI.manual_save_recording (src/utils/hardware.py lines
92-124), with the file writes it performs. Either buffer being empty
returns None before any file is touched; otherwise the wav and avi files
are written under the supplied or timestamp-derived basename, an exception
during the writes being caught and turned into None (modelled as failing
after the audio write). -/
def manual_save_recording (s : RecorderState) (basename : Option String)
    (timestamp : String) (writesOk : Bool) : Option String × List FileWrite :=
  if s.audio_frames = [] ∨ s.video_frames = [] then (none, [])
  else
    let b :=
      match basename with
      | none => "output_" ++ timestamp
      | some b => b
    if writesOk then (some b, [.wavWrite b, .aviWrite b])
    else (none, [.wavWrite b])

/- ### The sentiment sidecar artifact: writer and parsers -/

/-- The content AnalysisPipeline.run writes to the B_sentiment.txt sidecar
(src/core/analysis_pipeline.py lines 38-41): three Key: Value lines. -/
def sentiment_file_content (t v f : String) : String :=
  "Text Sentiment: " ++ t ++ "\n" ++ "Video Emotion: " ++ v ++ "\n"
    ++ "Final Sentiment: " ++ f ++ "\n"

/-- The per-line value extraction shared by the repository's sidecar
parsers: line.strip().split(": ")[1]. -/
def lineValue (line : String) : String :=
  match pySplit (pyStrip line) (": ") with
  | _ :: v :: _ => v
  | _ => ""

/-- AnalysisPipeline._read_sentiment_details (src/core/analysis_pipeline.py
lines 62-72): scans the lines for the Text Sentiment and Video Emotion
keys, keeping 未知 for a key that never appears. -/
def read_sentiment_details (content : String) : String × String :=
  (pySplit content ("\n")).foldl
    (fun acc line =>
      if pyStartsWith ("Text Sentiment:") line then (lineValue line, acc.2)
      else if pyStartsWith ("Video Emotion:") line then (acc.1, lineValue line)
      else acc)
    ("未知", "未知")

/-- The Final Sentiment line parse of the responder's test harness
(src/core/responder.py lines 148-152): the first matching line's value. -/
def read_final_sentiment (content : String) : String :=
  match (pySplit content ("\n")).find? (fun l => pyStartsWith ("Final Sentiment:") l) with
  | some l => lineValue l
  | none => ""

/-- The text-sentiment and final-sentiment enum of the data model
(spec §3). -/
inductive TextLabel
  | Positive
  | Negative
  | Neutral
deriving DecidableEq, Fintype, Repr

/-- String value of a text-sentiment label. -/
def TextLabel.str : TextLabel → String
  | .Positive => "Positive"
  | .Negative => "Negative"
  | .Neutral => "Neutral"

/-- The video-emotion enum of the data model (spec §3). -/
inductive VideoLabel
  | Happy
  | Sad
  | Angry
  | Surprise
  | Fear
  | Disgust
  | Neutral
  | NoFace
  | Unknown
  | Error
deriving DecidableEq, Fintype, Repr

/-- String value of a video-emotion label. -/
def VideoLabel.str : VideoLabel → String
  | .Happy => "Happy"
  | .Sad => "Sad"
  | .Angry => "Angry"
  | .Surprise => "Surprise"
  | .Fear => "Fear"
  | .Disgust => "Disgust"
  | .Neutral => "Neutral"
  | .NoFace => "NoFace"
  | .Unknown => "Unknown"
  | .Error => "Error"

/- ### Helper lemmas -/

/-- Unfolding step for the dictionary lookup model. -/
theorem dictGet_cons (k' : String) (x : ℚ) (d : List (String × ℚ))
    (k : String) (dflt : ℚ) :
    dictGet ((k', x) :: d) k dflt = if k' = k then x else dictGet d k dflt := by
  by_cases h : k' = k
  · simp [dictGet, List.find?, h]
  · simp [dictGet, List.find?, h]

/-- Lookup miss for the dictionary model. -/
theorem dictGet_nil (k : String) (dflt : ℚ) : dictGet [] k dflt = dflt := by
  simp [dictGet, List.find?]

/-- The text-sentiment score of claim C1, written from the spec's words:
Positive maps to +1, Negative to −1, Neutral to 0. -/
def claim_text_score (t : String) : ℚ :=
  if t = "Positive" then 1
  else if t = "Negative" then -1
  else 0

/-- The video-emotion score of claim C1, written from the spec's words:
Happy +1, Surprise +0.5, Disgust −1, Angry −1, Sad −0.7, Fear −0.6,
Neutral +0.1, and any other label 0. -/
def claim_video_score (v : String) : ℚ :=
  if v = "Happy" then 1
  else if v = "Surprise" then 1/2
  else if v = "Disgust" then -1
  else if v = "Angry" then -1
  else if v = "Sad" then -(7/10)
  else if v = "Fear" then -(3/5)
  else if v = "Neutral" then 1/10
  else 0

/-- The code's text-weight lookup agrees with the claim's mapping. -/
theorem text_weight_eq_claim (t : String) :
    dictGet text_weights t 0 = claim_text_score t := by
  by_cases h1 : t = "Positive"
  · subst h1; norm_num +decide [dictGet, text_weights, List.find?, claim_text_score]
  by_cases h2 : t = "Negative"
  · subst h2; norm_num +decide [dictGet, text_weights, List.find?, claim_text_score]
  by_cases h3 : t = "Neutral"
  · subst h3; norm_num +decide [dictGet, text_weights, List.find?, claim_text_score]
  have g1 : ¬("Positive" = t) := fun h => h1 h.symm
  have g2 : ¬("Negative" = t) := fun h => h2 h.symm
  have g3 : ¬("Neutral" = t) := fun h => h3 h.symm
  simp [dictGet, text_weights, List.find?, claim_text_score, g1, g2, g3, h1, h2, h3]

/-- The code's video-weight lookup agrees with the claim's mapping. -/
theorem video_weight_eq_claim (v : String) :
    dictGet video_weights v 0 = claim_video_score v := by
  by_cases h1 : v = "Happy"
  · subst h1; norm_num +decide [dictGet, video_weights, List.find?, claim_video_score]
  by_cases h2 : v = "Surprise"
  · subst h2; norm_num +decide [dictGet, video_weights, List.find?, claim_video_score]
  by_cases h3 : v = "Disgust"
  · subst h3; norm_num +decide [dictGet, video_weights, List.find?, claim_video_score]
  by_cases h4 : v = "Sad"
  · subst h4; norm_num +decide [dictGet, video_weights, List.find?, claim_video_score]
  by_cases h5 : v = "Angry"
  · subst h5; norm_num +decide [dictGet, video_weights, List.find?, claim_video_score]
  by_cases h6 : v = "Fear"
  · subst h6; norm_num +decide [dictGet, video_weights, List.find?, claim_video_score]
  by_cases h7 : v = "Neutral"
  · subst h7; norm_num +decide [dictGet, video_weights, List.find?, claim_video_score]
  have g1 : ¬("Happy" = v) := fun h => h1 h.symm
  have g2 : ¬("Surprise" = v) := fun h => h2 h.symm
  have g3 : ¬("Disgust" = v) := fun h => h3 h.symm
  have g4 : ¬("Sad" = v) := fun h => h4 h.symm
  have g5 : ¬("Angry" = v) := fun h => h5 h.symm
  have g6 : ¬("Fear" = v) := fun h => h6 h.symm
  have g7 : ¬("Neutral" = v) := fun h => h7 h.symm
  simp [dictGet, video_weights, List.find?, claim_video_score,
    g1, g2, g3, g4, g5, g6, g7, h1, h2, h3, h4, h5, h6, h7]

/- ### The claims -/

/-- C1: the fused result of get_multimodal_sentiment is the deterministic
function of the label pair: the score is 0.6·text_score + 0.4·video_score
under the claimed score tables (with 0 for any unmapped video label), the
final sentiment is Positive when the score is at least 0.3, Negative when
it is at most −0.3 and Neutral otherwise; in particular (Positive, Happy)
fuses to Positive with score 1, (Negative, Neutral) to Negative with score
−0.56 and (Neutral, Sad) to Neutral with score −0.28. The last conjunct
ties the fusion to get_multimodal_sentiment itself: the final sentiment it
returns is always fuse_scores applied to the returned label pair. -/
theorem fusion_is_claimed_function :
    (∀ t v : String,
      (fuse_scores t v).1
          = (6/10) * claim_text_score t + (4/10) * claim_video_score v
        ∧ (fuse_scores t v).2
          = (if (6/10) * claim_text_score t + (4/10) * claim_video_score v
                  ≥ 3/10 then "Positive"
             else if (6/10) * claim_text_score t + (4/10) * claim_video_score v
                  ≤ -(3/10) then "Negative"
             else "Neutral"))
    ∧ fuse_scores ("Positive") ("Happy") = (1, "Positive")
    ∧ fuse_scores ("Negative") ("Neutral") = (-(14/25), "Negative")
    ∧ fuse_scores ("Neutral") ("Sad") = (-(7/25), "Neutral")
    ∧ ∀ (venv : VideoEnv) (text : String) (p : Option ℚ),
        (get_multimodal_sentiment venv text p).map (fun r => r.final_sentiment)
          = (get_multimodal_sentiment venv text p).map
              (fun r => (fuse_scores r.text_sentiment r.video_emotion).2) := by
  refine ⟨fun t v => ?_, ?_, ?_, ?_, fun venv text p => ?_⟩
  · have e1 : dictGet text_weights t 0 * (6/10) + dictGet video_weights v 0 * (4/10)
        = (6/10) * claim_text_score t + (4/10) * claim_video_score v := by
      rw [text_weight_eq_claim, video_weight_eq_claim]; ring
    simp only [fuse_scores]
    rw [e1]
    exact ⟨rfl, rfl⟩
  · norm_num +decide [fuse_scores, dictGet, text_weights, video_weights, List.find?]
  · norm_num +decide [fuse_scores, dictGet, text_weights, video_weights, List.find?]
  · norm_num +decide [fuse_scores, dictGet, text_weights, video_weights, List.find?]
  · unfold get_multimodal_sentiment
    cases analyze_text_sentiment text p <;> rfl

/-- C2: the text classifier's positive-class probability p is mapped to
Positive when p > 0.6, to Negative when p < 0.4, and to Neutral when
0.4 ≤ p ≤ 0.6 — both boundaries land on Neutral — and for nonempty text
analyze_text_sentiment returns exactly this mapping of the oracle's
probability. -/
theorem text_sentiment_thresholds (p : ℚ) :
    (p > 6/10 → classify_positive_prob p = "Positive")
    ∧ (p < 4/10 → classify_positive_prob p = "Negative")
    ∧ (4/10 ≤ p → p ≤ 6/10 → classify_positive_prob p = "Neutral")
    ∧ ∀ t : String, t ≠ "" →
        analyze_text_sentiment t (some p) = .ok (classify_positive_prob p, p) := by
  refine ⟨fun h => ?_, fun h => ?_, fun h1 h2 => ?_, fun t ht => ?_⟩
  · simp [classify_positive_prob, h]
  · have : ¬ p > 6/10 := by linarith
    simp [classify_positive_prob, this, h]
  · have g1 : ¬ p > 6/10 := by linarith
    have g2 : ¬ p < 4/10 := by linarith
    simp [classify_positive_prob, g1, g2]
  · simp [analyze_text_sentiment, ht]

/-- Witness for C2 at the probabilities 0.7, 0.3, 0.4, 0.6 and 0.5 and a
nonempty text. -/
theorem text_sentiment_thresholds_w :
    classify_positive_prob (7/10) = "Positive"
    ∧ classify_positive_prob (3/10) = "Negative"
    ∧ classify_positive_prob (4/10) = "Neutral"
    ∧ classify_positive_prob (6/10) = "Neutral"
    ∧ classify_positive_prob (1/2) = "Neutral"
    ∧ analyze_text_sentiment ("你好") (some (1/2))
        = .ok (classify_positive_prob (1/2), 1/2) :=
  ⟨(text_sentiment_thresholds (7/10)).1 (by norm_num),
   (text_sentiment_thresholds (3/10)).2.1 (by norm_num),
   (text_sentiment_thresholds (4/10)).2.2.1 (by norm_num) (by norm_num),
   (text_sentiment_thresholds (6/10)).2.2.1 (by norm_num) (by norm_num),
   (text_sentiment_thresholds (1/2)).2.2.1 (by norm_num) (by norm_num),
   (text_sentiment_thresholds (1/2)).2.2.2 ("你好") (by decide)⟩

/-- C5: for an existing video asset, analyze_video_emotion returns NoFace
when no frame yields a detected face, and Error when the asset cannot be
opened; being a total function, the model raises in neither case. -/
theorem video_noface_and_open_error (v : VideoEnv) :
    (v.asset.pathExists = true → v.asset.opens = true →
      v.asset.frames.filterMap List.head? = [] →
      analyze_video_emotion v = "NoFace")
    ∧ (v.asset.pathExists = true → v.asset.opens = false →
      analyze_video_emotion v = "Error") := by
  constructor
  · intro h1 h2 h3
    simp [analyze_video_emotion, analyze_video_emotion_ev, h1, h2, h3]
  · intro h1 h2
    simp [analyze_video_emotion, analyze_video_emotion_ev, h1, h2]

/-- Witness for C5: a two-frame asset with no detected faces yields NoFace,
and an existing asset OpenCV cannot open yields Error. -/
theorem video_noface_and_open_error_w :
    analyze_video_emotion ⟨⟨true, true, [[], []]⟩, true⟩ = "NoFace"
    ∧ analyze_video_emotion ⟨⟨true, false, []⟩, true⟩ = "Error" :=
  ⟨(video_noface_and_open_error ⟨⟨true, true, [[], []]⟩, true⟩).1 rfl rfl rfl,
   (video_noface_and_open_error ⟨⟨true, false, []⟩, true⟩).2 rfl rfl⟩

/-- C10: a video path that does not exist yields the label Unknown without
any attempt to open the asset, and the Error label is only ever produced
for a path that does exist. -/
theorem video_missing_path_unknown (v : VideoEnv) :
    (v.asset.pathExists = false →
      analyze_video_emotion v = "Unknown"
        ∧ VideoEvent.openAttempted ∉ (analyze_video_emotion_ev v).2)
    ∧ (analyze_video_emotion v = "Error" → v.asset.pathExists = true) := by
  constructor
  · intro h
    simp [analyze_video_emotion, analyze_video_emotion_ev, h]
  · intro h
    by_contra hne
    have hfalse : v.asset.pathExists = false := by
      cases hb : v.asset.pathExists
      · rfl
      · exact absurd hb hne
    simp [analyze_video_emotion, analyze_video_emotion_ev, hfalse] at h

/-- Witness for C10: a missing path returns Unknown with no open attempt,
and an Error result certifies the path existed. -/
theorem video_missing_path_unknown_w :
    (analyze_video_emotion ⟨⟨false, true, [[]]⟩, true⟩ = "Unknown"
      ∧ VideoEvent.openAttempted
          ∉ (analyze_video_emotion_ev ⟨⟨false, true, [[]]⟩, true⟩).2)
    ∧ (⟨⟨true, false, []⟩, true⟩ : VideoEnv).asset.pathExists = true :=
  ⟨(video_missing_path_unknown ⟨⟨false, true, [[]]⟩, true⟩).1 rfl,
   (video_missing_path_unknown ⟨⟨true, false, []⟩, true⟩).2 rfl⟩

/-- C9: generate_response with empty user text returns the fixed fallback
reply 我在这里，准备好倾听你的心声。 for every sentiment label and every
state of the LLM oracle, and the invocation flag is false: the language
model is not consulted. -/
theorem empty_text_fallback_reply :
    (∀ (sentiment : String) (llm : Option String),
      generate_response ("") sentiment llm = .ok (fallback_reply, false))
    ∧ fallback_reply = "我在这里，准备好倾听你的心声。" :=
  ⟨fun _ _ => rfl, rfl⟩

/-- C8: manual_save_recording with an empty audio buffer or an empty video
buffer returns None and performs no file write, whatever basename,
timestamp and write outcome the call would otherwise have seen. -/
theorem empty_buffers_no_save (s : RecorderState) (basename : Option String)
    (timestamp : String) (writesOk : Bool)
    (h : s.audio_frames = [] ∨ s.video_frames = []) :
    manual_save_recording s basename timestamp writesOk = (none, []) := by
  simp [manual_save_recording, h]

/-- Witness for C8: stopping right after starting leaves both buffers empty
and the flush writes nothing. -/
theorem empty_buffers_no_save_w :
    manual_save_recording ⟨[], []⟩ none ("20250101_000000") true = (none, []) :=
  empty_buffers_no_save ⟨[], []⟩ none ("20250101_000000") true (Or.inl rfl)

/-- A pipeline step raising an exception that reaches the worker: the text
classifier or the LLM raised. These are the only steps of pipelineRun whose
exceptions propagate: the transcriber catches its own errors, and the two
sidecar writes are guarded in the pipeline. -/
def step_raised (e : PipelineEnv) : Prop :=
  e.positive_prob = none ∨ e.llm_output = none

/-- A video environment in which one frame holds one detected face whose
dominant emotion is happy. -/
def vGood : VideoEnv :=
  ⟨⟨true, true, [[[("happy", 1)]]]⟩, true⟩

/-- A run in which every step succeeds except the sentiment sidecar
write. -/
def envPersistFail : PipelineEnv :=
  ⟨"你好", true, some (9/10), vGood, false, some ("好的")⟩

/-- C3 counterexample: in a run whose only failure is the sentiment-sidecar
persistence step, the worker delivers the ordinary result tuple, not the
degraded one — so a persistence failure is not converted into the degraded
4-tuple the claim describes. -/
theorem persistence_failure_not_degraded :
    workerRun envPersistFail = .ok ("你好", "好的", "Positive", "Happy")
    ∧ envPersistFail.saveSentimentOk = false
    ∧ ("你好", "好的", "Positive", "Happy") ≠ degraded_tuple := by
  refine ⟨?_, rfl, by decide⟩
  norm_num +decide [workerRun, pipelineRun, envPersistFail, vGood,
    get_multimodal_sentiment, analyze_text_sentiment, classify_positive_prob,
    analyze_video_emotion, analyze_video_emotion_ev, modeFirst, idxmaxRow,
    pyCapitalize, fuse_scores, dictGet, text_weights, video_weights,
    generate_response, pyStrip, pyStripL, pyIsSpace, List.find?,
    placeholder_text]

/-- C3 as amended: the worker never lets a pipeline run terminate its
calling context abnormally, and an exception raised by the text classifier
or the LLM — the steps whose exceptions escape the pipeline — is caught by
the worker and converted into the degraded 4-tuple; persistence failures
are instead caught and logged inside the pipeline without degrading the
result (see the C6 theorems). -/
theorem worker_converts_model_failures (e : PipelineEnv) :
    (∃ res, workerRun e = .ok res)
    ∧ (step_raised e → workerRun e = .ok degraded_tuple) := by
  rcases e with ⟨tr, stOk, pp, venv, ssOk, llm⟩
  by_cases htr : tr = "" <;> cases pp <;> cases llm <;>
    simp +decide [workerRun, pipelineRun, get_multimodal_sentiment,
      analyze_text_sentiment, generate_response, step_raised, htr,
      placeholder_text]

/-- Witness for C3 as amended: a run whose classifier raises yields exactly
the degraded tuple from the worker. -/
theorem worker_converts_model_failures_w :
    step_raised ⟨"你好", true, none, vGood, true, none⟩
    ∧ workerRun ⟨"你好", true, none, vGood, true, none⟩ = .ok degraded_tuple :=
  ⟨Or.inl rfl,
   (worker_converts_model_failures ⟨"你好", true, none, vGood, true, none⟩).2
     (Or.inl rfl)⟩

/-- C4: when transcription returns empty text, the placeholder
(未能识别语音) is substituted, the transcript write, fusion, sentiment
write and response generation are all still attempted, and the returned
user_text is exactly the placeholder. The classifier and LLM oracles are
assumed not to raise, since a run they abort returns nothing at all. -/
theorem empty_transcript_placeholder (e : PipelineEnv) (p : ℚ) (r : String)
    (h1 : e.transcript = "") (h2 : e.positive_prob = some p)
    (h3 : e.llm_output = some r) :
    (∃ ai ts ve, (pipelineRun e).1 = .ok (placeholder_text, ai, ts, ve))
    ∧ PipelineStep.transcribeStep ∈ (pipelineRun e).2
    ∧ PipelineStep.saveTextStep ∈ (pipelineRun e).2
    ∧ PipelineStep.fuseStep ∈ (pipelineRun e).2
    ∧ PipelineStep.saveSentimentStep ∈ (pipelineRun e).2
    ∧ PipelineStep.respondStep ∈ (pipelineRun e).2 := by
  rcases e with ⟨tr, stOk, pp, venv, ssOk, llm⟩
  dsimp only at h1 h2 h3
  subst h1 h2 h3
  refine ⟨⟨pyStrip r, classify_positive_prob p, analyze_video_emotion venv, rfl⟩,
    ?_, ?_, ?_, ?_, ?_⟩ <;>
    cases stOk <;> cases ssOk <;>
      simp +decide [pipelineRun, get_multimodal_sentiment,
        analyze_text_sentiment, generate_response, placeholder_text]

/-- Witness for C4 at a concrete run with empty transcription. -/
theorem empty_transcript_placeholder_w :
    (∃ ai ts ve,
      (pipelineRun ⟨"", true, some (1/2), vGood, true, some ("好的")⟩).1
        = .ok (placeholder_text, ai, ts, ve))
    ∧ PipelineStep.transcribeStep
        ∈ (pipelineRun ⟨"", true, some (1/2), vGood, true, some ("好的")⟩).2
    ∧ PipelineStep.saveTextStep
        ∈ (pipelineRun ⟨"", true, some (1/2), vGood, true, some ("好的")⟩).2
    ∧ PipelineStep.fuseStep
        ∈ (pipelineRun ⟨"", true, some (1/2), vGood, true, some ("好的")⟩).2
    ∧ PipelineStep.saveSentimentStep
        ∈ (pipelineRun ⟨"", true, some (1/2), vGood, true, some ("好的")⟩).2
    ∧ PipelineStep.respondStep
        ∈ (pipelineRun ⟨"", true, some (1/2), vGood, true, some ("好的")⟩).2 :=
  empty_transcript_placeholder ⟨"", true, some (1/2), vGood, true, some ("好的")⟩
    (1/2) ("好的") rfl rfl rfl

/-- The C6 counterexample environment whose per-frame CSV write succeeds. -/
def envCsvOk : PipelineEnv :=
  ⟨"你好", true, some (9/10), vGood, true, some ("好的")⟩

/-- The same environment with only the per-frame CSV write failing. -/
def envCsvFail : PipelineEnv :=
  ⟨"你好", true, some (9/10), ⟨⟨true, true, [[[("happy", 1)]]]⟩, false⟩, true,
   some ("好的")⟩

/-- C6 counterexample: two runs identical except that the second one's
per-frame emotion CSV write fails; the second run still completes, but its
returned video_emotion is Error instead of Happy — the sidecar failure
changed the in-memory result. -/
theorem csv_write_failure_changes_result :
    (pipelineRun envCsvOk).1 = .ok ("你好", "好的", "Positive", "Happy")
    ∧ (pipelineRun envCsvFail).1 = .ok ("你好", "好的", "Positive", "Error")
    ∧ envCsvFail.transcript = envCsvOk.transcript
    ∧ envCsvFail.saveTextOk = envCsvOk.saveTextOk
    ∧ envCsvFail.positive_prob = envCsvOk.positive_prob
    ∧ envCsvFail.video.asset = envCsvOk.video.asset
    ∧ envCsvFail.saveSentimentOk = envCsvOk.saveSentimentOk
    ∧ envCsvFail.llm_output = envCsvOk.llm_output
    ∧ envCsvOk.video.csvWriteOk = true
    ∧ envCsvFail.video.csvWriteOk = false
    ∧ (("你好", "好的", "Positive", "Happy") : String × String × String × String)
        ≠ ("你好", "好的", "Positive", "Error") := by
  refine ⟨?_, ?_, rfl, rfl, rfl, rfl, rfl, rfl, rfl, rfl, by decide⟩ <;>
    norm_num +decide [pipelineRun, envCsvOk, envCsvFail, vGood,
      get_multimodal_sentiment, analyze_text_sentiment, classify_positive_prob,
      analyze_video_emotion, analyze_video_emotion_ev, modeFirst, idxmaxRow,
      pyCapitalize, fuse_scores, dictGet, text_weights, video_weights,
      generate_response, pyStrip, pyStripL, pyIsSpace, List.find?,
      placeholder_text]

/-- C6 as amended: a failed transcript write or sentiment-summary write is
logged and changes neither the pipeline outcome nor the returned tuple,
but a failed per-frame emotion CSV write, while also not aborting the run,
makes analyze_video_emotion report Error, changing the in-memory result.
The sentiment-summary write is only reached when the classifier did not
raise, hence that conjunct's oracle hypothesis. -/
theorem sidecar_write_failures (e : PipelineEnv) (b1 b2 : Bool) :
    (pipelineRun ⟨e.transcript, b1, e.positive_prob, e.video, b2, e.llm_output⟩).1
      = (pipelineRun e).1
    ∧ (e.saveTextOk = false →
        PipelineStep.saveTextFailedStep ∈ (pipelineRun e).2)
    ∧ (e.saveSentimentOk = false → e.positive_prob ≠ none →
        PipelineStep.saveSentimentFailedStep ∈ (pipelineRun e).2)
    ∧ ∀ v : VideoAsset, v.pathExists = true → v.opens = true →
        v.frames.filterMap List.head? ≠ [] →
        analyze_video_emotion ⟨v, false⟩ = "Error" := by
  refine ⟨?_, ?_, ?_, fun v g1 g2 g3 => ?_⟩
  · rcases e with ⟨tr, stOk, pp, venv, ssOk, llm⟩
    by_cases htr : tr = "" <;> cases pp <;> cases llm <;>
      simp +decide [pipelineRun, get_multimodal_sentiment,
        analyze_text_sentiment, generate_response, htr, placeholder_text]
  · intro h
    rcases e with ⟨tr, stOk, pp, venv, ssOk, llm⟩
    dsimp only at h
    subst h
    by_cases htr : tr = "" <;> cases pp <;> cases llm <;> cases ssOk <;>
      simp +decide [pipelineRun, get_multimodal_sentiment,
        analyze_text_sentiment, generate_response, htr, placeholder_text]
  · intro h hp
    rcases e with ⟨tr, stOk, pp, venv, ssOk, llm⟩
    dsimp only at h hp
    subst h
    cases pp with
    | none => exact absurd rfl hp
    | some p =>
      by_cases htr : tr = "" <;> cases llm <;> cases stOk <;>
        simp +decide [pipelineRun, get_multimodal_sentiment,
          analyze_text_sentiment, generate_response, htr, placeholder_text]
  · simp [analyze_video_emotion, analyze_video_emotion_ev, g1, g2, g3]

/-- Witness for C6 as amended: a concrete run with failing transcript and
sentiment-summary writes logs both failures without changing the pipeline
outcome, and a face-bearing asset whose CSV write fails reports Error. -/
theorem sidecar_write_failures_w :
    (pipelineRun ⟨"你好", true, some (1/2), vGood, true, none⟩).1
        = (pipelineRun ⟨"你好", false, some (1/2), vGood, false, none⟩).1
    ∧ PipelineStep.saveTextFailedStep
        ∈ (pipelineRun ⟨"你好", false, some (1/2), vGood, false, none⟩).2
    ∧ PipelineStep.saveSentimentFailedStep
        ∈ (pipelineRun ⟨"你好", false, some (1/2), vGood, false, none⟩).2
    ∧ analyze_video_emotion ⟨⟨true, true, [[[("happy", 1)]]]⟩, false⟩ = "Error" :=
  ⟨(sidecar_write_failures ⟨"你好", false, some (1/2), vGood, false, none⟩ true true).1,
   (sidecar_write_failures ⟨"你好", false, some (1/2), vGood, false, none⟩ true true).2.1
     rfl,
   (sidecar_write_failures ⟨"你好", false, some (1/2), vGood, false, none⟩ true true).2.2.1
     rfl (by decide),
   (sidecar_write_failures ⟨"你好", false, some (1/2), vGood, false, none⟩ true true).2.2.2
     ⟨true, true, [[[("happy", 1)]]]⟩ rfl rfl (by decide)⟩

/-- C7: for every triple of enum values, writing the sentiment sidecar as
three Key: Value lines and re-parsing those lines reproduces exactly the
same three values: _read_sentiment_details recovers the text sentiment and
the video emotion, and the repository's Final Sentiment line parse
recovers the final sentiment. -/
theorem sentiment_file_roundtrip :
    ∀ (t : TextLabel) (v : VideoLabel) (f : TextLabel),
      read_sentiment_details (sentiment_file_content t.str v.str f.str)
          = (t.str, v.str)
        ∧ read_final_sentiment (sentiment_file_content t.str v.str f.str)
          = f.str := by
  decide

end MSAS
